/- Verification development for the streamlink media backend.

The Python source under backend/app is shallowly embedded below.  Machine
floats are modelled by real numbers, SQL tables by Lean lists carried in an
explicit state record, uuid4 identities by a fresh counter, and Python
exceptions by Except.  External collaborators (the hashlib md5 digest,
datetime.strptime / datetime.fromisoformat, the TMDB client and the remote
embedding provider) are passed in as explicit function arguments, mirroring
the capability contracts in the specification.  Audit-only columns (row ids,
created_at, the raw payload) are omitted: no verified property mentions them.
-/
import Mathlib

namespace Streamlink

/-! ## Vector math, from backend/app/tasks/recommendations.py lines 197-209.

np.dot is the elementwise product summed, np.linalg.norm is the square root
of the sum of squares, and np.mean(vectors, axis=0) is the elementwise mean.
-/

/-- Model of np.dot: sum of the elementwise products. -/
def dotR (a b : List ℝ) : ℝ := (List.zipWith (fun x y => x * y) a b).sum

/-- Sum of squares of the entries; normR is its square root. -/
def sumSq (a : List ℝ) : ℝ := (a.map (fun x => x * x)).sum

/-- Model of np.linalg.norm: the Euclidean norm. -/
noncomputable def normR (a : List ℝ) : ℝ := Real.sqrt (sumSq a)

/-- Model of cosine_similarity (recommendations.py lines 197-209): returns 0.0
when either norm is zero, otherwise the dot product over the product of the
norms. -/
noncomputable def cosine_similarity (a b : List ℝ) : ℝ :=
  if normR a = 0 ∨ normR b = 0 then 0 else dotR a b / (normR a * normR b)

/-- Model of np.mean(vectors, axis=0): elementwise mean, used for the user
preference centroid (recommendations.py line 135). -/
noncomputable def npMean (vectors : List (List ℝ)) : List ℝ :=
  match vectors with
  | [] => []
  | v :: vs =>
    (vs.foldl (fun acc w => List.zipWith (fun x y => x + y) acc w) v).map
      (fun x => x / ((v :: vs).length : ℝ))

/-! ## Data model, from backend/app/models. -/

/-- Row of the events table (models/event.py).  occurred_at is an Option
mirroring the Python value handed to the Event constructor; the column
itself is NOT NULL (models/event.py line 25), and the ingestion model
raises the constraint violation when the value is none, as the database
does at flush. -/
structure Event where
  user_id : String
  item_id : Nat
  provider : String
  event_type : String
  occurred_at : Option Int
deriving DecidableEq

/-- Row of the items table (models/item.py). -/
structure Item where
  id : Nat
  external_id : Option String
  source : String
  title : String
  year : Option Int
  type : String
  overview : Option String
  poster_url : Option String
  genres : Option (List String)
  runtime : Option Int
  tmdb_id : Option String
deriving DecidableEq

/-- Row of the embeddings table (models/embedding.py). -/
structure Embedding where
  item_id : Nat
  vector : List ℝ
  model : String
  dimensions : Nat

/-- Row of the recommendations table (models/recommendation.py). -/
structure Recommendation where
  user_id : String
  item_id : Nat
  score : ℝ
  reason : String
  algorithm : String

/-- The persistent state touched by the task modules: users, providers,
items, events, embeddings and recommendations, plus a fresh-id counter
standing in for uuid4. -/
structure AppDB where
  users : List String
  providers : List String
  items : List Item
  events : List Event
  embeddings : List Embedding
  recommendations : List Recommendation
  nextId : Nat

/-! ## Netflix CSV parsing, from backend/app/services/netflix_csv.py.

The csv.DictReader text layer is external; a CSVRow models one dict row with
the columns the parser reads (a missing column reads as the empty string,
matching row.get with default).  datetime.strptime is the external
tryParseDate argument; both strptime attempts of the source are folded into
one Option-returning call, with the utcnow fallback applied on failure.
-/

/-! ### Python string primitives.

The parser leans on CPython string methods (strip, lower, split, replace,
startswith, int conversion).  They are embedded here as structural
recursions over the character list so that every concrete run reduces
inside the kernel.
-/

/-- Whether the first list starts with the second, the model of the Python
startswith test on character lists. -/
def listStartsWith : List Char → List Char → Bool
  | _, [] => true
  | [], _ :: _ => false
  | a :: as, b :: bs => a == b && listStartsWith as bs

/-- Fuel-indexed splitter on a nonempty separator; the fuel is the input
length plus one, which always suffices because every step consumes at least
one character. -/
def splitOnAuxL : Nat → List Char → List Char → List Char → List (List Char)
  | 0, _, _, acc => [acc.reverse]
  | fuel+1, sep, s, acc =>
    match s with
    | [] => [acc.reverse]
    | c :: cs =>
      if listStartsWith s sep then
        acc.reverse :: splitOnAuxL fuel sep (s.drop sep.length) []
      else splitOnAuxL fuel sep cs (c :: acc)

/-- Model of the Python split method on a nonempty separator. -/
def pySplitOn (s pat : String) : List String :=
  if pat.data == [] then [s]
  else (splitOnAuxL (s.data.length + 1) pat.data s.data []).map String.mk

/-- Join a list of strings with a separator. -/
def joinWith (sep : String) : List String → String
  | [] => ""
  | [x] => x
  | x :: y :: rest => x ++ sep ++ joinWith sep (y :: rest)

/-- Model of the Python replace method: split on the pattern and join with
the replacement. -/
def pyReplace (s pat rep : String) : String := joinWith rep (pySplitOn s pat)

/-- Model of the Python strip method with no argument. -/
def pyTrim (s : String) : String :=
  String.mk (((s.data.dropWhile Char.isWhitespace).reverse.dropWhile
    Char.isWhitespace).reverse)

/-- ASCII lowercase of one character. -/
def lowerChar (c : Char) : Char :=
  if 65 ≤ c.toNat && c.toNat ≤ 90 then Char.ofNat (c.toNat + 32) else c

/-- Model of the Python lower method for the ASCII range the parser needs. -/
def pyToLower (s : String) : String := String.mk (s.data.map lowerChar)

/-- Decimal value of a digit list. -/
def digitsToNat (ds : List Char) : Nat := ds.foldl (fun n c => n * 10 + (c.toNat - 48)) 0

/-- Model of the Python int constructor on strings: optional surrounding
whitespace, an optional sign, then decimal digits, anything else raising
(none). -/
def pyToInt? (s : String) : Option Int :=
  match (pyTrim s).data with
  | '-' :: rest => if !rest.isEmpty && rest.all Char.isDigit
                   then some (-(digitsToNat rest : Int)) else none
  | '+' :: rest => if !rest.isEmpty && rest.all Char.isDigit
                   then some (digitsToNat rest : Int) else none
  | cs => if !cs.isEmpty && cs.all Char.isDigit then some (digitsToNat cs : Int) else none

/-- Model of the Python startswith method. -/
def pyStartsWith (s pat : String) : Bool := listStartsWith s.data pat.data

/-- One Netflix CSV row as read by DictReader. -/
structure CSVRow where
  title : String
  date : String
  duration : String
  profileName : String
deriving DecidableEq

/-- Normalized record produced by NetflixCSVParser for one row. -/
structure ParsedItem where
  title : String
  year : Option Int
  date : Option Int
  duration_minutes : Option Int
  type : String
  external_id : String
deriving DecidableEq

/-- True when pat occurs inside s, the model of the Python in operator. -/
def hasSub (s pat : String) : Bool := (pySplitOn s pat).length != 1

/-- First maximal run of digits in s, the model of re.findall digits. -/
def firstDigitRun (s : String) : Option Nat :=
  let ds := (s.toList.dropWhile (fun c => !c.isDigit)).takeWhile (fun c => c.isDigit)
  if ds.isEmpty then none
  else some (ds.foldl (fun n c => n * 10 + (c.toNat - 48)) 0)

/-- Model of NetflixCSVParser duration parsing (netflix_csv.py lines 108-142):
a "min" form, a colon form with 2 or 3 fields, or a bare leading number; any
int conversion failure yields none, like the caught ValueError. -/
def parse_duration (s : String) : Option Int :=
  let t := pyToLower (pyTrim s)
  if hasSub t "min" then pyToInt? (pyTrim (pyReplace t "min" ""))
  else if hasSub t ":" then
    match (pySplitOn t ":").map pyToInt? with
    | [some h, some m, some sec] => some (h * 60 + m + sec / 60)
    | [some m, some sec] => some (m + sec / 60)
    | _ => none
  else (firstDigitRun t).map Int.ofNat

/-- Model of the movie / tv_show / unknown classification in _parse_row
(netflix_csv.py lines 69-76).  Python truthiness makes a zero duration fall
through to unknown, hence the m != 0 guards. -/
def classifyDuration (dm : Option Int) : String :=
  match dm with
  | some m =>
    if m != 0 && decide (m > 120) then "movie"
    else if m != 0 && decide (m < 60) then "tv_show"
    else "unknown"
  | none => "unknown"

/-- Model of the year extraction from a parenthesized title annotation
(netflix_csv.py lines 78-87), with the 1900..2030 sanity bounds. -/
def extractYear (title : String) : Option Int :=
  if hasSub title "(" && hasSub title ")" then
    match pyToInt? ((pySplitOn (((pySplitOn title "(").getLast?).getD "") ")").headD "") with
    | some y => if decide (y < 1900) || decide (y > 2030) then none else some y
    | none => none
  else none

/-- Model of the title cleanup that strips the matched year annotation
(netflix_csv.py lines 89-92). -/
def cleanTitle (title : String) (year : Option Int) : String :=
  match year with
  | some y =>
    if hasSub title ("(" ++ toString y ++ ")")
    then pyTrim (pyReplace title ("(" ++ toString y ++ ")") "")
    else title
  | none => title

/-- Model of NetflixCSVParser._parse_row (netflix_csv.py lines 41-106): a
blank title yields none (the skipped row), an unparseable date falls back to
the current time, and the profile name becomes the external id. -/
def parse_row (tryParseDate : String → Option Int) (now : Int) (row : CSVRow) :
    Option ParsedItem :=
  let title := pyTrim row.title
  if title == "" then none
  else
    let dm : Option Int := if row.duration == "" then none else parse_duration row.duration
    let year := extractYear title
    some { title := cleanTitle title year
           year := year
           date := if row.date == "" then none else some ((tryParseDate row.date).getD now)
           duration_minutes := dm
           type := classifyDuration dm
           external_id := row.profileName }

/-- Model of NetflixCSVParser.parse_csv (netflix_csv.py lines 17-39): rows
whose parse fails are skipped, never fatal to the batch. -/
def parse_csv (tryParseDate : String → Option Int) (now : Int) (rows : List CSVRow) :
    List ParsedItem :=
  rows.filterMap (parse_row tryParseDate now)

/-! ## Ingestion tasks, from backend/app/tasks/ingestion.py.

The per-record loop is straight-line Python; it is embedded as structural
recursion over the record list, threading the database state, the list of
ids of newly created items (for which enrichment jobs are enqueued after the
batch) and the count of created events.
-/

/-- Terminal result payload of an ingestion job. -/
structure IngestResult where
  status : String
  items_created : Nat
  events_created : Nat
deriving DecidableEq

/-- The type stored on a Netflix item (ingestion.py line 70): movie if the
parsed type is movie, otherwise tv_show. -/
def netflixItemType (t : String) : String := if t == "movie" then "movie" else "tv_show"

/-- The existing-item lookup of the Netflix loop (ingestion.py lines 55-59):
first item matching title, year and source NETFLIX. -/
def findNetflixItem (db : AppDB) (title : String) (year : Option Int) : Option Item :=
  db.items.find? (fun it => it.title == title && it.year == year && it.source == "NETFLIX")

/-- Get-or-create of a provider row (ingestion.py lines 37-47 and 135-145). -/
def ensureProvider (name : String) (db : AppDB) : AppDB :=
  if db.providers.contains name then db
  else { db with providers := db.providers ++ [name] }

/-- The Item constructor call of the Netflix loop (ingestion.py lines
64-72). -/
def mkNetflixItem (db : AppDB) (d : ParsedItem) : Item :=
  { id := db.nextId, external_id := some d.external_id, source := "NETFLIX",
    title := d.title, year := d.year, type := netflixItemType d.type, overview := none,
    poster_url := none, genres := none, runtime := none, tmdb_id := none }

/-- The Netflix per-record loop (ingestion.py lines 53-96): reuse the item
matching (source, title, year) or create a fresh one (committed eagerly, as
the source commits on each creation), then insert a WATCHED event carrying
the parsed date.  The events table declares occurred_at NOT NULL
(models/event.py line 25, migration 001), so a record whose Date cell was
empty reaches the database with occurred_at None and the insert raises
IntegrityError: the loop stops with the error and with the state committed
so far.  In the source the exception surfaces at the next session commit;
the items committed before that point persist, which the carried state
records (event rows pending in the failed transaction are rolled back
there; no verified property reads the event list of a failed batch). -/
def ingestNetflixRows (user_id : String) :
    List ParsedItem → AppDB → List Nat → Nat → AppDB × Except String (List Nat × Nat)
  | [], db, created, nev => (db, Except.ok (created, nev))
  | d :: ds, db, created, nev =>
    match findNetflixItem db d.title d.year with
    | some item =>
      match d.date with
      | none => (db, Except.error "IntegrityError: null value in column occurred_at")
      | some tEv =>
        let ev : Event := { user_id := user_id, item_id := item.id, provider := "NETFLIX",
                            event_type := "WATCHED", occurred_at := some tEv }
        ingestNetflixRows user_id ds { db with events := db.events ++ [ev] } created (nev + 1)
    | none =>
      let item : Item := mkNetflixItem db d
      let db1 : AppDB := { db with items := db.items ++ [item], nextId := db.nextId + 1 }
      match d.date with
      | none => (db1, Except.error "IntegrityError: null value in column occurred_at")
      | some tEv =>
        let ev : Event := { user_id := user_id, item_id := item.id, provider := "NETFLIX",
                            event_type := "WATCHED", occurred_at := some tEv }
        ingestNetflixRows user_id ds { db1 with events := db1.events ++ [ev] }
          (created ++ [item.id]) (nev + 1)

/-- Model of ingest_netflix_csv (ingestion.py lines 21-122): parse the rows,
ensure the NETFLIX provider, run the loop, and on completion enqueue one
enrichment job per created item (ingestion.py lines 103-105).  The first
component is the database state, kept also when the batch fails since items
created before the failing insert stay committed; the second is the task
result payload together with the enqueued enrichment jobs, or, for a failed
batch, the propagated error: then no result payload is produced and no
enrichment job is enqueued. -/
def ingest_netflix_csv (tryParseDate : String → Option Int) (now : Int)
    (user_id : String) (rows : List CSVRow) (db : AppDB) :
    AppDB × Except String (IngestResult × List Nat) :=
  let items_data := parse_csv tryParseDate now rows
  let db1 := ensureProvider "NETFLIX" db
  match ingestNetflixRows user_id items_data db1 [] 0 with
  | (db2, Except.error e) => (db2, Except.error e)
  | (db2, Except.ok (created, nev)) =>
    (db2, Except.ok ({ status := "success", items_created := created.length,
                       events_created := nev }, created))

/-- One YouTube history entry, with the fields the task reads. -/
structure YTRecord where
  title : String
  titleUrl : String
  time : String
deriving DecidableEq

/-- Strip the leading and trailing double quotes, the model of the Python
strip with a quote argument. -/
def stripQuotes (s : String) : String :=
  String.mk (((s.toList.dropWhile (fun c => c == '"')).reverse.dropWhile
    (fun c => c == '"')).reverse)

/-- Title extraction of the YouTube loop (ingestion.py lines 153-155): drop a
leading Watched marker and strip quotes. -/
def ytExtractTitle (s : String) : String :=
  if pyStartsWith s "Watched " then stripQuotes (s.drop 8) else s

/-- The record-skip condition of the YouTube loop (ingestion.py line 158):
empty title, or a title mentioning YouTube itself. -/
def ytSkip (title : String) : Bool := title == "" || hasSub title "YouTube"

/-- External id extraction from the titleUrl (ingestion.py line 172): the
part after the last equals sign, or none when there is no equals sign. -/
def ytExternalId (url : String) : Option String :=
  if hasSub url "=" then some (((pySplitOn url "=").getLast?).getD "") else none

/-- The YouTube per-record loop (ingestion.py lines 151-201).  The
datetime.fromisoformat call on the time field (line 189) is the external
parse_iso argument; when it fails the exception propagates and the whole
batch job fails, which Except.error models. -/
def ingestYoutubeRows (parse_iso : String → Option Int) (user_id : String) :
    List YTRecord → AppDB → List Nat → Nat → Except String (AppDB × List Nat × Nat)
  | [], db, created, nev => Except.ok (db, created, nev)
  | r :: rs, db, created, nev =>
    let title := ytExtractTitle r.title
    if ytSkip title then ingestYoutubeRows parse_iso user_id rs db created nev
    else
      match db.items.find? (fun it => it.title == title && it.source == "YOUTUBE") with
      | some item =>
        match parse_iso (pyReplace r.time "Z" "+00:00") with
        | none => Except.error ("Invalid isoformat string: " ++ r.time)
        | some t =>
          let ev : Event := { user_id := user_id, item_id := item.id, provider := "YOUTUBE",
                              event_type := "WATCHED", occurred_at := some t }
          ingestYoutubeRows parse_iso user_id rs { db with events := db.events ++ [ev] }
            created (nev + 1)
      | none =>
        let item : Item := { id := db.nextId, external_id := ytExternalId r.titleUrl,
                             source := "YOUTUBE", title := title, year := none,
                             type := "video", overview := none, poster_url := none,
                             genres := none, runtime := none, tmdb_id := none }
        match parse_iso (pyReplace r.time "Z" "+00:00") with
        | none => Except.error ("Invalid isoformat string: " ++ r.time)
        | some t =>
          let ev : Event := { user_id := user_id, item_id := item.id, provider := "YOUTUBE",
                              event_type := "WATCHED", occurred_at := some t }
          ingestYoutubeRows parse_iso user_id rs
            { db with items := db.items ++ [item], events := db.events ++ [ev],
                      nextId := db.nextId + 1 }
            (created ++ [item.id]) (nev + 1)

/-- Model of ingest_youtube_history (ingestion.py lines 125-227): ensure the
YOUTUBE provider, run the loop, and on completion enqueue one enrichment job
per created item. -/
def ingest_youtube_history (parse_iso : String → Option Int) (user_id : String)
    (records : List YTRecord) (db : AppDB) :
    Except String (AppDB × IngestResult × List Nat) :=
  let db1 := ensureProvider "YOUTUBE" db
  match ingestYoutubeRows parse_iso user_id records db1 [] 0 with
  | Except.error e => Except.error e
  | Except.ok (db2, created, nev) =>
    Except.ok (db2,
      { status := "success", items_created := created.length, events_created := nev },
      created)

/-! ## Enrichment tasks, from backend/app/tasks/enrichment.py. -/

/-- One TMDB search result, with the fields the enrichment task reads.  The
genre objects of the TMDB payload are modelled by their name strings. -/
structure TMDBItem where
  id : Int
  overview : Option String
  poster_path : Option String
  genres : List String
  runtime : Option Int

/-- Python truthiness of an optional string: None and the empty string are
falsy. -/
def optStrTruthy : Option String → Bool
  | some s => !(s == "")
  | none => false

/-- Terminal result payload of an enrichment stage. -/
structure EnrichResult where
  status : String
deriving DecidableEq

/-- Model of enrich_item_metadata (enrichment.py lines 18-85).  The TMDB
client is the external search argument.  The third component of a successful
return is the list of embedding jobs the stage enqueues (line 69).  A missing
item raises, modelled by Except.error. -/
def enrich_item_metadata (search : String → Option Int → List TMDBItem)
    (item_id : Nat) (db : AppDB) :
    Except String (EnrichResult × AppDB × List Nat) :=
  match db.items.find? (fun it => it.id == item_id) with
  | none => Except.error ("Item " ++ toString item_id ++ " not found")
  | some item =>
    if optStrTruthy item.tmdb_id && optStrTruthy item.overview then
      Except.ok ({ status := "skipped" }, db, [])
    else
      match search item.title item.year with
      | [] => Except.ok ({ status := "no_results" }, db, [])
      | t :: _ =>
        let item2 : Item :=
          { item with tmdb_id := some (toString t.id), overview := t.overview,
                      poster_url := t.poster_path, genres := some t.genres,
                      runtime := t.runtime }
        let db2 : AppDB :=
          { db with items := db.items.map (fun it => if it.id == item_id then item2 else it) }
        Except.ok ({ status := "success" }, db2, [item.id])

/-- The embedding input text (enrichment.py lines 119-124): title, then the
overview when truthy, then the space-joined genres when the list is truthy. -/
def embeddingText (item : Item) : String :=
  item.title
    ++ (match item.overview with
        | some o => if o == "" then "" else " " ++ o
        | none => "")
    ++ (match item.genres with
        | some (g :: gs) => " " ++ joinWith " " (g :: gs)
        | _ => "")

/-- Model of generate_item_embedding (enrichment.py lines 88-158, duplicated
in recommendations.py lines 19-89).  The embedding provider is the external
pair svc (text to vector) and svcModel (the declared model name).  The stage
skips when any embedding row for the item already exists, and otherwise
stores exactly one new row. -/
def generate_item_embedding (svc : String → List ℝ) (svcModel : String)
    (item_id : Nat) (db : AppDB) : Except String (EnrichResult × AppDB) :=
  match db.items.find? (fun it => it.id == item_id) with
  | none => Except.error ("Item " ++ toString item_id ++ " not found")
  | some item =>
    match db.embeddings.find? (fun r => r.item_id == item.id) with
    | some _ => Except.ok ({ status := "skipped" }, db)
    | none =>
      let vector := svc (embeddingText item)
      let row : Embedding := { item_id := item.id, vector := vector,
                               model := svcModel, dimensions := vector.length }
      Except.ok ({ status := "success" }, { db with embeddings := db.embeddings ++ [row] })

/-! ## Embedding gateway, from backend/app/services/embeddings/openai.py.

hashlib.md5 is external and enters as a digest function from text to its 16
bytes.  The remote provider call is external as well: provider t is ok v when
the transport succeeds and error e when any exception is raised.
-/

/-- Model of OpenAIEmbeddingsService._generate_mock_embedding (openai.py
lines 93-110): 1536 entries, cycling over the digest bytes, each byte mapped
by b / 255 * 2 - 1 into the interval from -1 to 1. -/
noncomputable def generate_mock_embedding (md5 : String → List Nat) (text : String) : List ℝ :=
  let hash_bytes := md5 text
  (List.range 1536).map
    (fun i => ((hash_bytes.getD (i % hash_bytes.length) 0 : ℝ) / 255) * 2 - 1)

/-- Model of OpenAIEmbeddingsService.generate_embedding (openai.py lines
29-59): without an api key, or on any provider exception, fall back to the
deterministic mock embedding. -/
noncomputable def openai_generate_embedding (md5 : String → List Nat) (api_key : Option String)
    (provider : String → Except String (List ℝ)) (text : String) : List ℝ :=
  match api_key with
  | none => generate_mock_embedding md5 text
  | some _ =>
    match provider text with
    | Except.ok v => v
    | Except.error _ => generate_mock_embedding md5 text

/-! ## Recommendation refresh, from backend/app/tasks/recommendations.py
lines 92-194.  The straight-line body is decomposed into one definition per
source block; refresh_user_recommendations glues them exactly in source
order. -/

/-- Terminal result payload of a recommendation refresh. -/
structure RefreshResult where
  status : String
  recommendations_created : Nat
deriving DecidableEq

/-- Bool form of the recency-window test Event.occurred_at >= cutoff; a SQL
comparison against NULL does not match. -/
def occurredWithin (cutoff : Int) : Option Int → Bool
  | some t => decide (cutoff ≤ t)
  | none => false

/-- The WATCHED events of the user in the last 30 days (recommendations.py
lines 110-115); time is measured in days. -/
def recentWatchedEvents (now : Int) (user_id : String) (db : AppDB) : List Event :=
  db.events.filter (fun e =>
    e.user_id == user_id && e.event_type == "WATCHED" && occurredWithin (now - 30) e.occurred_at)

/-- The item ids of the recent watched events (recommendations.py line 124). -/
def watchedItemIds (now : Int) (user_id : String) (db : AppDB) : List Nat :=
  (recentWatchedEvents now user_id db).map (fun e => e.item_id)

/-- The stored embeddings of the watched items (recommendations.py lines
125-127). -/
def watchedEmbeddings (now : Int) (user_id : String) (db : AppDB) : List Embedding :=
  db.embeddings.filter (fun emb => (watchedItemIds now user_id db).contains emb.item_id)

/-- The candidate pool: embeddings of items not in the watched set
(recommendations.py lines 140-142). -/
def candidateEmbeddings (now : Int) (user_id : String) (db : AppDB) : List Embedding :=
  db.embeddings.filter (fun emb => !((watchedItemIds now user_id db).contains emb.item_id))

/-- Each candidate paired with its cosine similarity to the preference
centroid (recommendations.py lines 133-152). -/
noncomputable def candidateSimilarities (now : Int) (user_id : String) (db : AppDB) :
    List (Nat × ℝ) :=
  (candidateEmbeddings now user_id db).map
    (fun emb =>
      (emb.item_id,
       cosine_similarity (npMean ((watchedEmbeddings now user_id db).map (fun w => w.vector)))
         emb.vector))

/-- The similarity sort (recommendations.py line 155): descending by score
with a stable sort, the model of list.sort with a key and reverse=True. -/
noncomputable def sortByScoreDesc (sims : List (Nat × ℝ)) : List (Nat × ℝ) :=
  sims.mergeSort (fun x y => decide (y.2 ≤ x.2))

/-- The sorted candidate list for a user. -/
noncomputable def sortedSimilarities (now : Int) (user_id : String) (db : AppDB) :
    List (Nat × ℝ) :=
  sortByScoreDesc (candidateSimilarities now user_id db)

/-- The rows inserted on a successful refresh (recommendations.py lines
164-175): top 20 of the sorted candidates, each carrying the score, the
static reason string and the content_based algorithm tag. -/
noncomputable def newRecommendations (now : Int) (user_id : String) (db : AppDB) :
    List Recommendation :=
  ((sortedSimilarities now user_id db).take 20).map
    (fun p => { user_id := user_id, item_id := p.1, score := p.2,
                reason := "Based on your recent viewing history",
                algorithm := "content_based" })

/-- Model of refresh_user_recommendations (recommendations.py lines 92-194).
A missing user raises; the three data-poor states return without touching
the stored recommendations; the success path deletes every prior row of the
user and inserts the new rows in the same state transition. -/
noncomputable def refresh_user_recommendations (now : Int) (user_id : String) (db : AppDB) :
    Except String (RefreshResult × AppDB) :=
  if db.users.contains user_id then
    if (recentWatchedEvents now user_id db).isEmpty then
      Except.ok ({ status := "no_data", recommendations_created := 0 }, db)
    else if (watchedEmbeddings now user_id db).isEmpty then
      Except.ok ({ status := "no_embeddings", recommendations_created := 0 }, db)
    else if (candidateEmbeddings now user_id db).isEmpty then
      Except.ok ({ status := "no_candidates", recommendations_created := 0 }, db)
    else
      Except.ok
        ({ status := "success",
           recommendations_created := (newRecommendations now user_id db).length },
         { db with recommendations :=
             db.recommendations.filter (fun r => !(r.user_id == user_id))
               ++ newRecommendations now user_id db })
  else Except.error ("User " ++ user_id ++ " not found")

/-! ## Supporting lemmas for the vector math. -/

lemma sumSq_nonneg (a : List ℝ) : 0 ≤ sumSq a := by
  induction a with
  | nil => simp [sumSq]
  | cons x a ih =>
    simp only [sumSq, List.map_cons, List.sum_cons] at ih ⊢
    nlinarith [sq_nonneg x]

lemma dotR_self (a : List ℝ) : dotR a a = sumSq a := by
  induction a with
  | nil => simp [dotR, sumSq]
  | cons x a ih => simp only [dotR, sumSq, List.zipWith_cons_cons, List.map_cons,
      List.sum_cons] at ih ⊢; rw [ih]

lemma two_mul_dot_le (x y d A B : ℝ) (hd : d ^ 2 ≤ A * B) (hA : 0 ≤ A) (hB : 0 ≤ B) :
    2 * x * y * d ≤ x ^ 2 * B + y ^ 2 * A := by
  rcases eq_or_lt_of_le hA with hA0 | hA0
  · have hd0 : d = 0 := by nlinarith
    subst hd0
    have : 0 ≤ x ^ 2 * B := mul_nonneg (sq_nonneg x) hB
    nlinarith [sq_nonneg y]
  · have h1 : (2 * x * y * d) * A ≤ (x ^ 2 * B + y ^ 2 * A) * A := by
      nlinarith [sq_nonneg (x * d - y * A), mul_le_mul_of_nonneg_left hd (sq_nonneg x)]
    exact le_of_mul_le_mul_right h1 hA0

/-- Cauchy-Schwarz for the list dot product. -/
lemma dotR_sq_le (a : List ℝ) : ∀ b : List ℝ, (dotR a b) ^ 2 ≤ sumSq a * sumSq b := by
  induction a with
  | nil => intro b; simp [dotR, sumSq]
  | cons x a ih =>
    intro b
    cases b with
    | nil => simp [dotR, sumSq]
    | cons y b =>
      have h := ih b
      have ha := sumSq_nonneg a
      have hb := sumSq_nonneg b
      have key := two_mul_dot_le x y (dotR a b) (sumSq a) (sumSq b) h ha hb
      simp only [dotR, sumSq, List.zipWith_cons_cons, List.map_cons, List.sum_cons]
      show (x * y + dotR a b) ^ 2 ≤ (x * x + sumSq a) * (y * y + sumSq b)
      nlinarith [key, h]

lemma normR_nonneg (a : List ℝ) : 0 ≤ normR a := Real.sqrt_nonneg _

lemma abs_dotR_le (a b : List ℝ) : |dotR a b| ≤ normR a * normR b := by
  have h := Real.abs_le_sqrt (dotR_sq_le a b)
  rwa [Real.sqrt_mul (sumSq_nonneg a)] at h

/-- C4: cosine_similarity equals the dot product over the product of the
norms (in real arithmetic the zero-norm branch agrees with this quotient as
well), returns exactly zero when either norm is zero, always lies between -1
and 1, and on a vector of nonzero norm paired with itself equals exactly 1
(the real-arithmetic sharpening of approximately 1). -/
theorem cosine_similarity_spec (a b : List ℝ) (hlen : a.length = b.length) :
    cosine_similarity a b = dotR a b / (normR a * normR b)
    ∧ (normR a = 0 ∨ normR b = 0 → cosine_similarity a b = 0)
    ∧ (-1 ≤ cosine_similarity a b ∧ cosine_similarity a b ≤ 1)
    ∧ (normR a ≠ 0 → cosine_similarity a a = 1) := by
  refine ⟨?_, ?_, ?_, ?_⟩
  · by_cases h : normR a = 0 ∨ normR b = 0
    · rw [cosine_similarity, if_pos h]
      rcases h with h | h <;> rw [h] <;> simp
    · rw [cosine_similarity, if_neg h]
  · intro h; rw [cosine_similarity, if_pos h]
  · by_cases h : normR a = 0 ∨ normR b = 0
    · rw [cosine_similarity, if_pos h]; norm_num
    · push_neg at h
      have hpos : 0 < normR a * normR b := by
        rcases lt_or_eq_of_le (normR_nonneg a) with h1 | h1
        · rcases lt_or_eq_of_le (normR_nonneg b) with h2 | h2
          · exact mul_pos h1 h2
          · exact absurd h2.symm h.2
        · exact absurd h1.symm h.1
      rw [cosine_similarity, if_neg (by push_neg; exact h)]
      have habs : |dotR a b / (normR a * normR b)| ≤ 1 := by
        rw [abs_div, abs_of_pos hpos, div_le_one hpos]
        exact abs_dotR_le a b
      exact abs_le.mp habs
  · intro hne
    have hA : 0 < sumSq a := by
      rcases lt_or_eq_of_le (sumSq_nonneg a) with h1 | h1
      · exact h1
      · exact absurd (by rw [normR, ← h1, Real.sqrt_zero]) hne
    rw [cosine_similarity, if_neg (by push_neg; exact ⟨hne, hne⟩)]
    rw [dotR_self, normR, Real.mul_self_sqrt (sumSq_nonneg a), div_self (ne_of_gt hA)]

/-- C4 witness at two concrete orthogonal vectors. -/
theorem cosine_similarity_spec_witness :
    cosine_similarity [(1 : ℝ), 0] [(0 : ℝ), 1]
        = dotR [(1 : ℝ), 0] [(0 : ℝ), 1] / (normR [(1 : ℝ), 0] * normR [(0 : ℝ), 1])
    ∧ (normR [(1 : ℝ), 0] = 0 ∨ normR [(0 : ℝ), 1] = 0
        → cosine_similarity [(1 : ℝ), 0] [(0 : ℝ), 1] = 0)
    ∧ (-1 ≤ cosine_similarity [(1 : ℝ), 0] [(0 : ℝ), 1]
        ∧ cosine_similarity [(1 : ℝ), 0] [(0 : ℝ), 1] ≤ 1)
    ∧ (normR [(1 : ℝ), 0] ≠ 0 → cosine_similarity [(1 : ℝ), 0] [(1 : ℝ), 0] = 1) :=
  cosine_similarity_spec [(1 : ℝ), 0] [(0 : ℝ), 1] rfl

/-! ## Supporting lemmas for the embedding gateway. -/

lemma getD_lt_256 (l : List Nat) (k : Nat) (h : ∀ b ∈ l, b < 256) : l.getD k 0 < 256 := by
  rcases h2 : l[k]? with _ | b
  · simp [List.getD, h2]
  · have hm : b ∈ l := List.getElem?_mem h2
    simpa [List.getD, h2] using h b hm

/-- C5: on a provider exception the gateway returns the deterministic mock
embedding, which has exactly 1536 entries, each inside the interval from -1
to 1, and which depends only on the md5 digest of the input text. -/
theorem openai_generate_embedding_fallback_spec (md5 : String → List Nat)
    (api_key : Option String) (provider : String → Except String (List ℝ))
    (text e : String)
    (herr : provider text = Except.error e)
    (hb : ∀ b ∈ md5 text, b < 256) :
    openai_generate_embedding md5 api_key provider text = generate_mock_embedding md5 text
    ∧ (generate_mock_embedding md5 text).length = 1536
    ∧ (∀ x ∈ generate_mock_embedding md5 text, -1 ≤ x ∧ x ≤ 1)
    ∧ (∀ t2, md5 t2 = md5 text
        → generate_mock_embedding md5 t2 = generate_mock_embedding md5 text) := by
  refine ⟨?_, ?_, ?_, ?_⟩
  · cases api_key with
    | none => rfl
    | some k => simp [openai_generate_embedding, herr]
  · simp [generate_mock_embedding]
  · intro x hx
    simp only [generate_mock_embedding, List.mem_map, List.mem_range] at hx
    obtain ⟨i, -, rfl⟩ := hx
    have hlt : (md5 text).getD (i % (md5 text).length) 0 < 256 := getD_lt_256 _ _ hb
    have h0 : (0 : ℝ) ≤ ((md5 text).getD (i % (md5 text).length) 0 : ℝ) := by positivity
    have h255 : ((md5 text).getD (i % (md5 text).length) 0 : ℝ) ≤ 255 := by
      exact_mod_cast Nat.lt_succ_iff.mp hlt
    constructor <;> nlinarith
  · intro t2 ht; simp [generate_mock_embedding, ht]

/-- C5 witness: a concrete digest function, a failing provider and a key. -/
theorem openai_generate_embedding_fallback_spec_witness :
    openai_generate_embedding (fun _ => List.range 16) (some "k")
        (fun _ => Except.error "boom") "t"
      = generate_mock_embedding (fun _ => List.range 16) "t"
    ∧ (generate_mock_embedding (fun _ => List.range 16) "t").length = 1536
    ∧ (∀ x ∈ generate_mock_embedding (fun _ => List.range 16) "t", -1 ≤ x ∧ x ≤ 1)
    ∧ (∀ t2, (fun _ => List.range 16) t2 = (fun _ => List.range 16) "t"
        → generate_mock_embedding (fun _ => List.range 16) t2
          = generate_mock_embedding (fun _ => List.range 16) "t") :=
  openai_generate_embedding_fallback_spec (fun _ => List.range 16) (some "k")
    (fun _ => Except.error "boom") "t" "boom" rfl (by decide)

/-! ## Theorems about the recommendation refresh. -/

lemma sortByScoreDesc_le_trans : ∀ a b c : Nat × ℝ,
    (fun x y : Nat × ℝ => decide (y.2 ≤ x.2)) a b
    → (fun x y : Nat × ℝ => decide (y.2 ≤ x.2)) b c
    → (fun x y : Nat × ℝ => decide (y.2 ≤ x.2)) a c := by
  intro a b c hab hbc
  simp only [decide_eq_true_eq] at hab hbc ⊢
  exact le_trans hbc hab

lemma sortByScoreDesc_le_total : ∀ a b : Nat × ℝ,
    ((fun x y : Nat × ℝ => decide (y.2 ≤ x.2)) a b
    || (fun x y : Nat × ℝ => decide (y.2 ≤ x.2)) b a) := by
  intro a b
  rcases le_total a.2 b.2 with h | h <;> simp [h]

/-- The similarity sort always emits its pairs in descending score order. -/
lemma sortByScoreDesc_pairwise (sims : List (Nat × ℝ)) :
    (sortByScoreDesc sims).Pairwise (fun x y => y.2 ≤ x.2) := by
  have hs := List.sorted_mergeSort sortByScoreDesc_le_trans sortByScoreDesc_le_total sims
  exact hs.imp (fun h => of_decide_eq_true h)

/-- C3: a refresh that ends in no_data, no_embeddings or no_candidates
returns the database unchanged, so the previously stored recommendation set
of the user is untouched. -/
theorem refresh_terminal_preserves_db (now : Int) (uid : String) (db : AppDB)
    (res : RefreshResult) (db2 : AppDB)
    (hrun : refresh_user_recommendations now uid db = Except.ok (res, db2))
    (hstatus : res.status = "no_data" ∨ res.status = "no_embeddings"
      ∨ res.status = "no_candidates") :
    db2 = db := by
  simp only [refresh_user_recommendations] at hrun
  split at hrun
  · split at hrun
    · simp only [Except.ok.injEq, Prod.mk.injEq] at hrun
      exact hrun.2.symm
    · split at hrun
      · simp only [Except.ok.injEq, Prod.mk.injEq] at hrun
        exact hrun.2.symm
      · split at hrun
        · simp only [Except.ok.injEq, Prod.mk.injEq] at hrun
          exact hrun.2.symm
        · simp only [Except.ok.injEq, Prod.mk.injEq] at hrun
          rw [← hrun.1] at hstatus
          rcases hstatus with h | h | h <;> simp at h
  · simp at hrun

/-- Database used by the refresh witnesses: user u watched item 0, items 0
and 1 have embeddings, and a stale recommendation is stored. -/
noncomputable def dbRefreshW : AppDB :=
  { users := ["u"], providers := [],
    items := [],
    events := [{ user_id := "u", item_id := 0, provider := "NETFLIX",
                 event_type := "WATCHED", occurred_at := some 100 }],
    embeddings := [{ item_id := 0, vector := [1], model := "m", dimensions := 1 },
                   { item_id := 1, vector := [1], model := "m", dimensions := 1 }],
    recommendations := [{ user_id := "u", item_id := 9, score := 0,
                          reason := "old", algorithm := "content_based" }],
    nextId := 2 }

/-- Database with no events, used for the C3 witness. -/
noncomputable def dbNoDataW : AppDB :=
  { users := ["u"], providers := [], items := [], events := [], embeddings := [],
    recommendations := [{ user_id := "u", item_id := 9, score := 0,
                          reason := "old", algorithm := "content_based" }],
    nextId := 0 }

/-- C3 witness: a user with a stored recommendation and no events gets a
no_data refresh that keeps the stored set. -/
theorem refresh_terminal_preserves_db_witness :
    refresh_user_recommendations 100 "u" dbNoDataW
      = Except.ok ({ status := "no_data", recommendations_created := 0 }, dbNoDataW)
    ∧ dbNoDataW = dbNoDataW :=
  ⟨rfl, refresh_terminal_preserves_db 100 "u" dbNoDataW
    { status := "no_data", recommendations_created := 0 } dbNoDataW rfl
    (Or.inl rfl)⟩

/-- C1: a refresh on a user with at least one qualifying event, at least one
watched embedding and a nonempty candidate pool succeeds, and in one state
transition removes every previously stored row of the user and inserts the
top-20 candidates by descending cosine score, at most 20 rows, each carrying
the score, the static reason string and the content_based algorithm tag. -/
theorem refresh_success_replaces (now : Int) (uid : String) (db : AppDB)
    (hu : db.users.contains uid = true)
    (hev : (recentWatchedEvents now uid db).isEmpty = false)
    (hwe : (watchedEmbeddings now uid db).isEmpty = false)
    (hc : (candidateEmbeddings now uid db).isEmpty = false) :
    refresh_user_recommendations now uid db
      = Except.ok ({ status := "success",
                     recommendations_created := (newRecommendations now uid db).length },
          { db with recommendations :=
              db.recommendations.filter (fun r => !(r.user_id == uid))
                ++ newRecommendations now uid db })
    ∧ (newRecommendations now uid db).length ≤ 20
    ∧ newRecommendations now uid db
        = ((sortedSimilarities now uid db).take 20).map
            (fun p => { user_id := uid, item_id := p.1, score := p.2,
                        reason := "Based on your recent viewing history",
                        algorithm := "content_based" })
    ∧ (∀ r ∈ newRecommendations now uid db,
        r.user_id = uid ∧ r.reason = "Based on your recent viewing history"
          ∧ r.algorithm = "content_based")
    ∧ (sortedSimilarities now uid db).Pairwise (fun x y => y.2 ≤ x.2)
    ∧ (∀ res db2, refresh_user_recommendations now uid db = Except.ok (res, db2)
        → ∀ r ∈ db2.recommendations, r.user_id = uid
        → r ∈ newRecommendations now uid db) := by
  have hmain : refresh_user_recommendations now uid db
      = Except.ok ({ status := "success",
                     recommendations_created := (newRecommendations now uid db).length },
          { db with recommendations :=
              db.recommendations.filter (fun r => !(r.user_id == uid))
                ++ newRecommendations now uid db }) := by
    have hu2 : uid ∈ db.users := by simpa using hu
    simp [refresh_user_recommendations, hu2, hev, hwe, hc]
  refine ⟨hmain, ?_, rfl, ?_, sortByScoreDesc_pairwise _, ?_⟩
  · simp only [newRecommendations, List.length_map, List.length_take]
    omega
  · intro r hr
    simp only [newRecommendations, List.mem_map] at hr
    obtain ⟨p, -, rfl⟩ := hr
    exact ⟨rfl, rfl, rfl⟩
  · intro res db2 h2 r hr hruid
    rw [hmain] at h2
    simp only [Except.ok.injEq, Prod.mk.injEq] at h2
    rw [← h2.2] at hr
    simp only [List.mem_append] at hr
    rcases hr with hr | hr
    · have := List.of_mem_filter hr
      simp [hruid] at this
    · exact hr

/-- C1 witness: the concrete database dbRefreshW satisfies every hypothesis
and so gets at most 20 fresh rows. -/
theorem refresh_success_replaces_witness :
    (newRecommendations 100 "u" dbRefreshW).length ≤ 20 :=
  (refresh_success_replaces 100 "u" dbRefreshW rfl rfl rfl rfl).2.1

/-- C9: the candidate sort is descending by score, stable (candidates of
equal score keep their relative input order), and the refresh is a pure
function of its inputs, so identical events and embeddings give the
identical output order and top-20 selection. -/
theorem sortByScoreDesc_stable_deterministic :
    (∀ sims : List (Nat × ℝ), (sortByScoreDesc sims).Pairwise (fun x y => y.2 ≤ x.2))
    ∧ (∀ (a b : Nat × ℝ) (sims : List (Nat × ℝ)), a.2 = b.2 → List.Sublist [a, b] sims
        → List.Sublist [a, b] (sortByScoreDesc sims))
    ∧ (∀ now uid (db1 db2 : AppDB), db1 = db2
        → refresh_user_recommendations now uid db1
          = refresh_user_recommendations now uid db2) := by
  refine ⟨sortByScoreDesc_pairwise, ?_, ?_⟩
  · intro a b sims hab hsub
    exact List.pair_sublist_mergeSort sortByScoreDesc_le_trans sortByScoreDesc_le_total
      (decide_eq_true (le_of_eq hab.symm)) hsub
  · intro now uid db1 db2 h
    rw [h]

/-- C9 witness: two equal-score candidates keep their input order. -/
theorem sortByScoreDesc_stable_deterministic_witness :
    List.Sublist [((1 : Nat), (0 : ℝ)), ((2 : Nat), (0 : ℝ))]
      (sortByScoreDesc [((1 : Nat), (0 : ℝ)), ((2 : Nat), (0 : ℝ))]) :=
  sortByScoreDesc_stable_deterministic.2.1 ((1 : Nat), (0 : ℝ)) ((2 : Nat), (0 : ℝ))
    [((1 : Nat), (0 : ℝ)), ((2 : Nat), (0 : ℝ))] rfl (List.Sublist.refl _)

/-! ## Supporting lemmas for the ingestion loops. -/

lemma ensureProvider_items (n : String) (db : AppDB) :
    (ensureProvider n db).items = db.items := by
  unfold ensureProvider; split <;> rfl

lemma findNetflixItem_ensureProvider (n : String) (db : AppDB) (t : String)
    (y : Option Int) :
    findNetflixItem (ensureProvider n db) t y = findNetflixItem db t y := by
  unfold findNetflixItem; rw [ensureProvider_items]

lemma ingestNetflixRows_ok (uid : String) :
    ∀ (ds : List ParsedItem) (db : AppDB) (created : List Nat) (nev : Nat),
    (∀ d ∈ ds, d.date.isSome = true) →
    ∃ db2 c, ingestNetflixRows uid ds db created nev
      = (db2, Except.ok (c, nev + ds.length)) := by
  intro ds
  induction ds with
  | nil => intro db created nev _; exact ⟨db, created, rfl⟩
  | cons d ds ih =>
    intro db created nev h
    obtain ⟨tEv, ht⟩ := Option.isSome_iff_exists.mp (h d (List.mem_cons_self d ds))
    have htail : ∀ x ∈ ds, x.date.isSome = true :=
      fun x hx => h x (List.mem_cons_of_mem d hx)
    have harith : nev + 1 + ds.length = nev + (d :: ds).length := by
      simp only [List.length_cons]; omega
    cases hfind : findNetflixItem db d.title d.year with
    | some item =>
      simp only [ingestNetflixRows, hfind, ht]
      rw [← harith]
      exact ih _ created (nev + 1) htail
    | none =>
      simp only [ingestNetflixRows, hfind, ht]
      rw [← harith]
      exact ih _ _ (nev + 1) htail

lemma ingestNetflixRows_err (uid : String) :
    ∀ (ds : List ParsedItem) (db : AppDB) (created : List Nat) (nev : Nat),
    (∃ x ∈ ds, x.date = none) →
    ∃ db2 e, ingestNetflixRows uid ds db created nev = (db2, Except.error e) := by
  intro ds
  induction ds with
  | nil =>
    intro db created nev h
    obtain ⟨x, hx, -⟩ := h
    exact absurd hx (List.not_mem_nil x)
  | cons d ds ih =>
    intro db created nev h
    cases hdate : d.date with
    | none =>
      cases hfind : findNetflixItem db d.title d.year with
      | some item =>
        exact ⟨db, "IntegrityError: null value in column occurred_at",
          by simp only [ingestNetflixRows, hfind, hdate]⟩
      | none =>
        exact ⟨{ db with items := db.items ++ [mkNetflixItem db d],
                         nextId := db.nextId + 1 },
          "IntegrityError: null value in column occurred_at",
          by simp only [ingestNetflixRows, hfind, hdate]⟩
    | some tEv =>
      obtain ⟨x, hx, hxd⟩ := h
      rcases List.mem_cons.mp hx with rfl | hx2
      · rw [hdate] at hxd
        exact absurd hxd (by simp)
      · cases hfind : findNetflixItem db d.title d.year with
        | some item =>
          simp only [ingestNetflixRows, hfind, hdate]
          exact ih _ created (nev + 1) ⟨x, hx2, hxd⟩
        | none =>
          simp only [ingestNetflixRows, hfind, hdate]
          exact ih _ _ (nev + 1) ⟨x, hx2, hxd⟩

lemma ingestNetflixRows_existing (uid t : String) (y : Option Int) :
    ∀ (ds : List ParsedItem) (db : AppDB) (created : List Nat) (nev : Nat) (item : Item),
    (∀ d ∈ ds, d.title = t ∧ d.year = y ∧ d.date.isSome = true) →
    findNetflixItem db t y = some item →
    (ingestNetflixRows uid ds db created nev).1.items = db.items
    ∧ (ingestNetflixRows uid ds db created nev).2
        = Except.ok (created, nev + ds.length) := by
  intro ds
  induction ds with
  | nil => intro db created nev item _ _; exact ⟨rfl, rfl⟩
  | cons d ds ih =>
    intro db created nev item h hf
    obtain ⟨hdt, hdy, hdd⟩ := h d (List.mem_cons_self d ds)
    obtain ⟨tEv, ht⟩ := Option.isSome_iff_exists.mp hdd
    have hfd : findNetflixItem db d.title d.year = some item := by
      rw [hdt, hdy]; exact hf
    have harith : nev + 1 + ds.length = nev + (d :: ds).length := by
      simp only [List.length_cons]; omega
    simp only [ingestNetflixRows, hfd, ht]
    rw [← harith]
    exact ih _ created (nev + 1) item (fun x hx => h x (List.mem_cons_of_mem d hx)) hf

lemma ingestNetflixRows_fresh_uniform (uid t : String) (y : Option Int)
    (d : ParsedItem) (ds : List ParsedItem) (db : AppDB)
    (hd : d.title = t ∧ d.year = y ∧ d.date.isSome = true)
    (hds : ∀ x ∈ ds, x.title = t ∧ x.year = y ∧ x.date.isSome = true)
    (hf : findNetflixItem db t y = none) :
    (ingestNetflixRows uid (d :: ds) db [] 0).1.items = db.items ++ [mkNetflixItem db d]
    ∧ (ingestNetflixRows uid (d :: ds) db [] 0).2
        = Except.ok ([db.nextId], (d :: ds).length) := by
  obtain ⟨hdt, hdy, hdd⟩ := hd
  obtain ⟨tEv, ht⟩ := Option.isSome_iff_exists.mp hdd
  have hfd : findNetflixItem db d.title d.year = none := by rw [hdt, hdy]; exact hf
  simp only [ingestNetflixRows, hfd, ht]
  have hkey : (fun it : Item =>
      it.title == t && it.year == y && it.source == "NETFLIX") (mkNetflixItem db d)
        = true := by
    simp [mkNetflixItem, hdt, hdy]
  have hf2 : ∀ db2 : AppDB, db2.items = db.items ++ [mkNetflixItem db d] →
      findNetflixItem db2 t y = some (mkNetflixItem db d) := by
    intro db2 h2
    unfold findNetflixItem
    rw [h2, List.find?_append]
    have h1 : db.items.find? (fun it =>
        it.title == t && it.year == y && it.source == "NETFLIX") = none := hf
    simp only [h1, Option.none_or]
    exact List.find?_cons_of_pos _ hkey
  have harith : 0 + 1 + ds.length = (d :: ds).length := by
    simp only [List.length_cons]; omega
  have hstep := ingestNetflixRows_existing uid t y ds
    { db with items := db.items ++ [mkNetflixItem db d],
              nextId := db.nextId + 1,
              events := db.events ++
                [{ user_id := uid, item_id := db.nextId, provider := "NETFLIX",
                   event_type := "WATCHED", occurred_at := some tEv }] }
    ([] ++ [db.nextId]) (0 + 1) (mkNetflixItem db d) hds (hf2 _ rfl)
  rw [harith] at hstep
  exact ⟨hstep.1, hstep.2⟩

/-- Count of NETFLIX items in the catalog carrying the given dedup key. -/
def countNetflixKey (db : AppDB) (t : String) (y : Option Int) : Nat :=
  (db.items.filter (fun it => it.title == t && it.year == y && it.source == "NETFLIX")).length

/-- C2 amended: for batches whose records all carry a viewing date, a batch
whose records all parse to one (source, title, year) key creates exactly one
Item when the key is fresh (and none when it already exists), creates one
Event per record, enqueues exactly one enrichment job for the newly created
item and none for pre-existing ones, and leaves exactly one catalog item
with that key; in particular the dated 3-row batch Show A, Show A, Show B
on an empty catalog yields 2 items, 3 events and 2 enrichment jobs.  A
record with an empty Date cell instead fails the whole batch on the NOT
NULL constraint of events.occurred_at (see the counterexample). -/
theorem ingest_netflix_same_key_spec :
    (∀ (pd : String → Option Int) (now : Int) (uid t : String) (y : Option Int)
        (rows : List CSVRow) (db : AppDB) (d : ParsedItem) (ds : List ParsedItem),
      parse_csv pd now rows = d :: ds →
      (∀ x ∈ parse_csv pd now rows, x.title = t ∧ x.year = y ∧ x.date.isSome = true) →
      findNetflixItem db t y = none →
      (ingest_netflix_csv pd now uid rows db).2
        = Except.ok ({ status := "success", items_created := 1,
                       events_created := (parse_csv pd now rows).length },
            [(ensureProvider "NETFLIX" db).nextId])
      ∧ countNetflixKey (ingest_netflix_csv pd now uid rows db).1 t y = 1)
    ∧ (∀ (pd : String → Option Int) (now : Int) (uid t : String) (y : Option Int)
        (rows : List CSVRow) (db : AppDB) (item : Item),
      (∀ x ∈ parse_csv pd now rows, x.title = t ∧ x.year = y ∧ x.date.isSome = true) →
      findNetflixItem db t y = some item →
      (ingest_netflix_csv pd now uid rows db).2
        = Except.ok ({ status := "success", items_created := 0,
                       events_created := (parse_csv pd now rows).length }, [])
      ∧ (ingest_netflix_csv pd now uid rows db).1.items = db.items)
    ∧ (ingest_netflix_csv (fun _ => some 1) 0 "u"
          [{ title := "Show A", date := "2024-01-01", duration := "", profileName := "" },
           { title := "Show A", date := "2024-01-01", duration := "", profileName := "" },
           { title := "Show B", date := "2024-01-01", duration := "", profileName := "" }]
          { users := ["u"], providers := [], items := [], events := [], embeddings := [],
            recommendations := [], nextId := 0 }).2
        = Except.ok ({ status := "success", items_created := 2, events_created := 3 },
            [0, 1]) := by
  refine ⟨?_, ?_, ?_⟩
  · intro pd now uid t y rows db d ds hparse hkeys hfresh
    have hfresh1 : findNetflixItem (ensureProvider "NETFLIX" db) t y = none := by
      rw [findNetflixItem_ensureProvider]; exact hfresh
    have hd := hkeys d (by rw [hparse]; exact List.mem_cons_self d ds)
    have hds : ∀ x ∈ ds, x.title = t ∧ x.year = y ∧ x.date.isSome = true := fun x hx =>
      hkeys x (by rw [hparse]; exact List.mem_cons_of_mem d hx)
    have hmain := ingestNetflixRows_fresh_uniform uid t y d ds
      (ensureProvider "NETFLIX" db) hd hds hfresh1
    rcases hrun : ingestNetflixRows uid (d :: ds) (ensureProvider "NETFLIX" db) [] 0
      with ⟨db2, r⟩
    rw [hrun] at hmain
    have hr : r = Except.ok ([(ensureProvider "NETFLIX" db).nextId], (d :: ds).length) :=
      hmain.2
    subst hr
    have hi1 : db2.items = (ensureProvider "NETFLIX" db).items
        ++ [mkNetflixItem (ensureProvider "NETFLIX" db) d] := hmain.1
    constructor
    · simp only [ingest_netflix_csv, hparse, hrun]
      simp
    · have hdb : (ingest_netflix_csv pd now uid rows db).1 = db2 := by
        simp [ingest_netflix_csv, hparse, hrun]
      rw [hdb]
      have hfilter : db.items.filter (fun it =>
          it.title == t && it.year == y && it.source == "NETFLIX") = [] := by
        rw [List.filter_eq_nil_iff]
        intro a ha
        have := List.find?_eq_none.mp hfresh a ha
        simpa using this
      have hkeyitem : (fun it : Item =>
          it.title == t && it.year == y && it.source == "NETFLIX")
            (mkNetflixItem (ensureProvider "NETFLIX" db) d) = true := by
        simp [mkNetflixItem, hd.1, hd.2.1]
      simp only [countNetflixKey, hi1, ensureProvider_items, List.filter_append, hfilter]
      simp [hkeyitem]
  · intro pd now uid t y rows db item hkeys hexist
    have hexist1 : findNetflixItem (ensureProvider "NETFLIX" db) t y = some item := by
      rw [findNetflixItem_ensureProvider]; exact hexist
    have hmain := ingestNetflixRows_existing uid t y (parse_csv pd now rows)
      (ensureProvider "NETFLIX" db) [] 0 item hkeys hexist1
    rcases hrun : ingestNetflixRows uid (parse_csv pd now rows)
      (ensureProvider "NETFLIX" db) [] 0 with ⟨db2, r⟩
    rw [hrun] at hmain
    have hr : r = Except.ok ([], 0 + (parse_csv pd now rows).length) := hmain.2
    subst hr
    have hi1 : db2.items = (ensureProvider "NETFLIX" db).items := hmain.1
    constructor
    · simp only [ingest_netflix_csv, hrun]
      simp
    · have hdb : (ingest_netflix_csv pd now uid rows db).1 = db2 := by
        simp [ingest_netflix_csv, hrun]
      rw [hdb, hi1, ensureProvider_items]
  · rfl

/-- C2 counterexample: a 2-record same-key batch whose Date cells are empty
fails the whole batch on the NOT NULL constraint of events.occurred_at: the
task ends with the IntegrityError rather than a success payload, no
enrichment job is enqueued, and the committed state holds one item but zero
events, not the two events the claim asserts. -/
theorem ingest_netflix_empty_date_counterexample :
    (ingest_netflix_csv (fun _ => none) 0 "u"
        [{ title := "Show C", date := "", duration := "", profileName := "" },
         { title := "Show C", date := "", duration := "", profileName := "" }]
        { users := ["u"], providers := [], items := [], events := [], embeddings := [],
            recommendations := [], nextId := 0 }).2
      = Except.error "IntegrityError: null value in column occurred_at"
    ∧ (ingest_netflix_csv (fun _ => none) 0 "u"
        [{ title := "Show C", date := "", duration := "", profileName := "" },
         { title := "Show C", date := "", duration := "", profileName := "" }]
        { users := ["u"], providers := [], items := [], events := [], embeddings := [],
            recommendations := [], nextId := 0 }).1.events = []
    ∧ (ingest_netflix_csv (fun _ => none) 0 "u"
        [{ title := "Show C", date := "", duration := "", profileName := "" },
         { title := "Show C", date := "", duration := "", profileName := "" }]
        { users := ["u"], providers := [], items := [], events := [], embeddings := [],
            recommendations := [], nextId := 0 }).1.items.length = 1 :=
  ⟨rfl, rfl, rfl⟩

/-- C2 witness: the fresh-key half applied to a concrete dated one-key
batch. -/
theorem ingest_netflix_same_key_spec_witness :
    (ingest_netflix_csv (fun _ => some 1) 0 "u"
        [{ title := "Show C", date := "2024-01-01", duration := "", profileName := "" },
         { title := "Show C", date := "2024-01-01", duration := "", profileName := "" }]
        { users := ["u"], providers := [], items := [], events := [], embeddings := [],
            recommendations := [], nextId := 0 }).2
      = Except.ok ({ status := "success", items_created := 1, events_created := 2 }, [0])
    ∧ countNetflixKey (ingest_netflix_csv (fun _ => some 1) 0 "u"
        [{ title := "Show C", date := "2024-01-01", duration := "", profileName := "" },
         { title := "Show C", date := "2024-01-01", duration := "", profileName := "" }]
        { users := ["u"], providers := [], items := [], events := [], embeddings := [],
            recommendations := [], nextId := 0 }).1 "Show C" none = 1 :=
  ingest_netflix_same_key_spec.1 (fun _ => some 1) 0 "u" "Show C" none
    [{ title := "Show C", date := "2024-01-01", duration := "", profileName := "" },
     { title := "Show C", date := "2024-01-01", duration := "", profileName := "" }]
    { users := ["u"], providers := [], items := [], events := [], embeddings := [],
            recommendations := [], nextId := 0 }
    { title := "Show C", year := none, date := some 1, duration_minutes := none,
      type := "unknown", external_id := "" }
    [{ title := "Show C", year := none, date := some 1, duration_minutes := none,
       type := "unknown", external_id := "" }]
    rfl (by decide) rfl

lemma ingestNetflixRows_item_types (uid : String) :
    ∀ (ds : List ParsedItem) (db : AppDB) (created : List Nat) (nev : Nat),
    ∀ it ∈ (ingestNetflixRows uid ds db created nev).1.items,
    it ∈ db.items ∨ ∃ d ∈ ds, it.type = netflixItemType d.type := by
  intro ds
  induction ds with
  | nil => intro db created nev it hit; exact Or.inl hit
  | cons d ds ih =>
    intro db created nev it hit
    cases h : findNetflixItem db d.title d.year with
    | some item =>
      cases hdate : d.date with
      | none =>
        simp only [ingestNetflixRows, h, hdate] at hit
        exact Or.inl hit
      | some tEv =>
        simp only [ingestNetflixRows, h, hdate] at hit
        rcases ih _ _ _ it hit with h1 | ⟨d2, hd2, ht⟩
        · exact Or.inl h1
        · exact Or.inr ⟨d2, List.mem_cons_of_mem d hd2, ht⟩
    | none =>
      cases hdate : d.date with
      | none =>
        simp only [ingestNetflixRows, h, hdate] at hit
        rcases List.mem_append.mp hit with h2 | h2
        · exact Or.inl h2
        · have h3 : it = mkNetflixItem db d := by simpa using h2
          exact Or.inr ⟨d, List.mem_cons_self d ds, by rw [h3]; rfl⟩
      | some tEv =>
        simp only [ingestNetflixRows, h, hdate] at hit
        rcases ih _ _ _ it hit with h1 | ⟨d2, hd2, ht⟩
        · rcases List.mem_append.mp h1 with h2 | h2
          · exact Or.inl h2
          · have h3 : it = mkNetflixItem db d := by simpa using h2
            exact Or.inr ⟨d, List.mem_cons_self d ds, by rw [h3]; rfl⟩
        · exact Or.inr ⟨d2, List.mem_cons_of_mem d hd2, ht⟩

/-- C10: every item stored by Netflix ingestion has type movie or tv_show
(never unknown or video): the stored type is movie exactly when the parsed
type is movie and tv_show otherwise, while the parser itself classifies a
missing duration, and any duration from 60 to 120 minutes, as unknown. -/
theorem netflix_item_type_spec :
    (∀ (pd : String → Option Int) (now : Int) (uid : String) (rows : List CSVRow)
        (db : AppDB), ∀ it ∈ (ingest_netflix_csv pd now uid rows db).1.items,
      it ∈ db.items ∨ it.type = "movie" ∨ it.type = "tv_show")
    ∧ (∀ t : String, t ≠ "movie" → netflixItemType t = "tv_show")
    ∧ classifyDuration none = "unknown"
    ∧ (∀ m : Int, 60 ≤ m → m ≤ 120 → classifyDuration (some m) = "unknown") := by
  refine ⟨?_, ?_, rfl, ?_⟩
  · intro pd now uid rows db it hit
    rcases hrun : ingestNetflixRows uid (parse_csv pd now rows)
      (ensureProvider "NETFLIX" db) [] 0 with ⟨db2, r⟩
    have hdb : (ingest_netflix_csv pd now uid rows db).1 = db2 := by
      cases r with
      | error e => simp [ingest_netflix_csv, hrun]
      | ok p =>
        rcases p with ⟨c, n⟩
        simp [ingest_netflix_csv, hrun]
    rw [hdb] at hit
    have h2 := ingestNetflixRows_item_types uid (parse_csv pd now rows)
      (ensureProvider "NETFLIX" db) [] 0 it (by rw [hrun]; exact hit)
    rcases h2 with h2 | ⟨d, -, ht⟩
    · left; rwa [ensureProvider_items] at h2
    · right
      rw [ht]
      unfold netflixItemType
      split
      · left; rfl
      · right; rfl
  · intro t ht
    simp [netflixItemType, ht]
  · intro m h1 h2
    simp only [classifyDuration, Bool.and_eq_true, bne_iff_ne, decide_eq_true_eq]
    split_ifs with hA hB
    · exact absurd hA.2 (by omega)
    · exact absurd hB.2 (by omega)
    · rfl

/-- C10 witness: the unknown classification is stored as tv_show. -/
theorem netflix_item_type_spec_witness : netflixItemType "unknown" = "tv_show" :=
  netflix_item_type_spec.2.1 "unknown" (by decide)

lemma ingestYoutubeRows_ok (pyt : String → Option Int) (uid : String) :
    ∀ (recs : List YTRecord) (db : AppDB) (created : List Nat) (nev : Nat),
    (∀ r ∈ recs, ytSkip (ytExtractTitle r.title) = false
      → (pyt (pyReplace r.time "Z" "+00:00")).isSome = true) →
    ∃ out, ingestYoutubeRows pyt uid recs db created nev = Except.ok out := by
  intro recs
  induction recs with
  | nil => intro db c n _; exact ⟨(db, c, n), rfl⟩
  | cons r rs ih =>
    intro db c n h
    cases hskip : ytSkip (ytExtractTitle r.title) with
    | true =>
      simp only [ingestYoutubeRows, hskip, if_true]
      exact ih db c n (fun x hx => h x (List.mem_cons_of_mem r hx))
    | false =>
      have htime := h r (List.mem_cons_self r rs) hskip
      rcases Option.isSome_iff_exists.mp htime with ⟨tt, htt⟩
      cases hfind : db.items.find? (fun it =>
          it.title == ytExtractTitle r.title && it.source == "YOUTUBE") with
      | some item =>
        simp only [ingestYoutubeRows, hskip, hfind, htt, Bool.false_eq_true, if_false]
        exact ih _ _ _ (fun x hx => h x (List.mem_cons_of_mem r hx))
      | none =>
        simp only [ingestYoutubeRows, hskip, hfind, htt, Bool.false_eq_true, if_false]
        exact ih _ _ _ (fun x hx => h x (List.mem_cons_of_mem r hx))

/-- C8 amended: Netflix record tolerance is partial.  Records the parser
cannot handle (missing title) are dropped at record granularity, and a
batch whose parsed records all carry a date reaches a success result
counting one event per parsed record; but a parsed record with an empty
Date cell violates the NOT NULL constraint on events.occurred_at and fails
the whole Netflix batch.  YouTube batches skip records with empty or
YouTube-referring titles and finish successfully provided every remaining
record carries a parseable time field; a malformed or missing time aborts
the whole YouTube batch (see the counterexample). -/
theorem ingestion_record_skip_spec :
    (∀ (pd : String → Option Int) (now : Int) (uid : String) (rows : List CSVRow)
        (db : AppDB),
      (∀ x ∈ parse_csv pd now rows, x.date.isSome = true) →
      (ingest_netflix_csv pd now uid rows db).2.isOk = true
      ∧ ∀ res jobs, (ingest_netflix_csv pd now uid rows db).2 = Except.ok (res, jobs)
          → res.status = "success"
            ∧ res.events_created = (parse_csv pd now rows).length)
    ∧ (∀ (pd : String → Option Int) (now : Int) (uid : String) (rows : List CSVRow)
        (db : AppDB) (x : ParsedItem),
      x ∈ parse_csv pd now rows → x.date = none →
      (ingest_netflix_csv pd now uid rows db).2.isOk = false)
    ∧ (∀ (pd : String → Option Int) (now : Int) (row : CSVRow) (rows : List CSVRow),
      parse_row pd now row = none
      → parse_csv pd now (row :: rows) = parse_csv pd now rows)
    ∧ (∀ (pyt : String → Option Int) (uid : String) (recs : List YTRecord) (db : AppDB),
      (∀ r ∈ recs, ytSkip (ytExtractTitle r.title) = false
        → (pyt (pyReplace r.time "Z" "+00:00")).isSome = true)
      → (ingest_youtube_history pyt uid recs db).isOk = true
        ∧ ∀ db2 res jobs, ingest_youtube_history pyt uid recs db = Except.ok (db2, res, jobs)
          → res.status = "success") := by
  refine ⟨?_, ?_, ?_, ?_⟩
  · intro pd now uid rows db h
    obtain ⟨db2, c, hrun⟩ := ingestNetflixRows_ok uid (parse_csv pd now rows)
      (ensureProvider "NETFLIX" db) [] 0 h
    constructor
    · simp [ingest_netflix_csv, hrun, Except.isOk, Except.toBool]
    · intro res jobs hok
      simp only [ingest_netflix_csv, hrun, Except.ok.injEq, Prod.mk.injEq] at hok
      obtain ⟨hres, -⟩ := hok
      rw [← hres]
      exact ⟨rfl, by simp⟩
  · intro pd now uid rows db x hx hxd
    obtain ⟨db2, e, hrun⟩ := ingestNetflixRows_err uid (parse_csv pd now rows)
      (ensureProvider "NETFLIX" db) [] 0 ⟨x, hx, hxd⟩
    simp [ingest_netflix_csv, hrun, Except.isOk, Except.toBool]
  · intro pd now row rows h
    simp [parse_csv, h]
  · intro pyt uid recs db h
    obtain ⟨out, hout⟩ := ingestYoutubeRows_ok pyt uid recs (ensureProvider "YOUTUBE" db) [] 0 h
    rcases out with ⟨db2, created, nev⟩
    constructor
    · simp [ingest_youtube_history, hout, Except.isOk, Except.toBool]
    · intro db3 res jobs hok
      simp only [ingest_youtube_history, hout, Except.ok.injEq, Prod.mk.injEq] at hok
      rw [← hok.2.1]

/-- C8 witness for the amended YouTube branch: with every time field
parseable the batch succeeds. -/
theorem ingestion_record_skip_spec_witness :
    (ingest_youtube_history (fun _ => some 5) "u"
        [{ title := "Watched Y", titleUrl := "v=abc", time := "2024Z" }]
        { users := ["u"], providers := [], items := [], events := [], embeddings := [],
          recommendations := [], nextId := 0 }).isOk = true :=
  (ingestion_record_skip_spec.2.2.2 (fun _ => some 5) "u"
    [{ title := "Watched Y", titleUrl := "v=abc", time := "2024Z" }]
    { users := ["u"], providers := [], items := [], events := [], embeddings := [],
      recommendations := [], nextId := 0 }
    (fun _ _ _ => rfl)).1

/-- C8 counterexample: a YouTube record with a valid title but a malformed
time field makes the whole batch job fail with an error, so an unparseable
record is not always skipped at record granularity. -/
theorem ingest_youtube_malformed_time_fails :
    ingest_youtube_history (fun _ => none) "u"
        [{ title := "Watched X", titleUrl := "", time := "not-a-time" }]
        { users := ["u"], providers := [], items := [], events := [], embeddings := [],
          recommendations := [], nextId := 0 }
      = Except.error "Invalid isoformat string: not-a-time" := rfl

/-! ## Theorems about the enrichment stages. -/

/-- The embedding row stored by a successful embedding run. -/
noncomputable def storedEmbeddingRow (svc : String → List ℝ) (m : String) (item : Item) :
    Embedding :=
  { item_id := item.id, vector := svc (embeddingText item), model := m,
    dimensions := (svc (embeddingText item)).length }

/-- The database after a successful embedding run on an item. -/
noncomputable def dbWithEmbedding (svc : String → List ℝ) (m : String) (item : Item)
    (db : AppDB) : AppDB :=
  { db with embeddings := db.embeddings ++ [storedEmbeddingRow svc m item] }

/-- C6: the embedding stage is idempotent per item.  When an embedding row
for the item already exists the run returns skipped and changes nothing;
when none exists the run stores exactly one row for that (item, model), and
a second run on the written state returns skipped and changes nothing, so
any number of runs leaves exactly one stored row. -/
theorem generate_item_embedding_idempotent (svc : String → List ℝ) (m : String)
    (iid : Nat) (db : AppDB) (item : Item)
    (hfound : db.items.find? (fun it => it.id == iid) = some item) :
    (∀ ex, db.embeddings.find? (fun r => r.item_id == item.id) = some ex →
      generate_item_embedding svc m iid db = Except.ok ({ status := "skipped" }, db))
    ∧ (db.embeddings.find? (fun r => r.item_id == item.id) = none →
      generate_item_embedding svc m iid db
          = Except.ok ({ status := "success" }, dbWithEmbedding svc m item db)
      ∧ ((dbWithEmbedding svc m item db).embeddings.filter
            (fun r => r.item_id == item.id)).length = 1
      ∧ ((dbWithEmbedding svc m item db).embeddings.filter
            (fun r => r.item_id == item.id && r.model == m)).length = 1
      ∧ generate_item_embedding svc m iid (dbWithEmbedding svc m item db)
          = Except.ok ({ status := "skipped" }, dbWithEmbedding svc m item db)) := by
  constructor
  · intro ex hex
    simp only [generate_item_embedding, hfound, hex]
  · intro hnone
    have hfilter : db.embeddings.filter (fun r => r.item_id == item.id) = [] := by
      rw [List.filter_eq_nil_iff]
      intro a ha
      exact List.find?_eq_none.mp hnone a ha
    have hfilter2 : db.embeddings.filter (fun r => r.item_id == item.id && r.model == m)
        = [] := by
      rw [List.filter_eq_nil_iff]
      intro a ha hpa
      exact List.find?_eq_none.mp hnone a ha (by
        simp only [Bool.and_eq_true] at hpa
        exact hpa.1)
    have hrow : ((storedEmbeddingRow svc m item).item_id == item.id) = true := by
      simp [storedEmbeddingRow]
    have hrow2 : ((storedEmbeddingRow svc m item).item_id == item.id
        && (storedEmbeddingRow svc m item).model == m) = true := by
      simp [storedEmbeddingRow]
    refine ⟨?_, ?_, ?_, ?_⟩
    · simp only [generate_item_embedding, hfound, hnone]
      rfl
    · simp only [dbWithEmbedding, List.filter_append, hfilter, List.nil_append]
      simp [hrow]
    · simp only [dbWithEmbedding, List.filter_append, hfilter2, List.nil_append]
      simp [hrow2]
    · have hfind2 : (dbWithEmbedding svc m item db).embeddings.find?
          (fun r => r.item_id == item.id) = some (storedEmbeddingRow svc m item) := by
        simp only [dbWithEmbedding, List.find?_append, hnone, Option.none_or]
        exact List.find?_cons_of_pos _ hrow
      have hfound2 : (dbWithEmbedding svc m item db).items.find?
          (fun it => it.id == iid) = some item := hfound
      simp only [generate_item_embedding, hfound2, hfind2]

/-- Item and database fixtures for the enrichment witnesses. -/
def itemW : Item :=
  { id := 0, external_id := none, source := "NETFLIX", title := "T", year := none,
    type := "movie", overview := none, poster_url := none, genres := none,
    runtime := none, tmdb_id := none }

/-- Catalog holding only itemW. -/
def dbItemW : AppDB :=
  { users := [], providers := [], items := [itemW], events := [], embeddings := [],
    recommendations := [], nextId := 1 }

/-- Catalog holding itemW and one stored embedding row for it. -/
noncomputable def dbItemEmbW : AppDB :=
  { dbItemW with embeddings := [{ item_id := 0, vector := [1], model := "m",
                                  dimensions := 1 }] }

/-- C6 witness: on a state that already stores an embedding for the item the
stage skips and changes nothing. -/
theorem generate_item_embedding_idempotent_witness :
    generate_item_embedding (fun _ => [(1 : ℝ)]) "m" 0 dbItemEmbW
      = Except.ok ({ status := "skipped" }, dbItemEmbW) :=
  (generate_item_embedding_idempotent (fun _ => [(1 : ℝ)]) "m" 0 dbItemEmbW itemW rfl).1
    { item_id := 0, vector := [1], model := "m", dimensions := 1 } rfl

/-- C7 counterexample: on an empty metadata search result the stage returns
no_results, leaves the catalog unchanged, and enqueues no embedding job at
all, contradicting the claim that the embedding stage is still triggered. -/
theorem enrich_no_results_counterexample :
    enrich_item_metadata (fun _ _ => []) 0 dbItemW
      = Except.ok ({ status := "no_results" }, dbItemW, ([] : List Nat)) := rfl

/-- C7 amended: with empty search results the metadata stage ends with
status no_results, does not modify the item and does not trigger the
embedding stage; the embedding stage is triggered (exactly once, for this
item) only on the success path, after the metadata fields are updated. -/
theorem enrich_metadata_spec (search : String → Option Int → List TMDBItem)
    (iid : Nat) (db : AppDB) (item : Item)
    (hfound : db.items.find? (fun it => it.id == iid) = some item)
    (hneedy : (optStrTruthy item.tmdb_id && optStrTruthy item.overview) = false) :
    (search item.title item.year = [] →
      enrich_item_metadata search iid db
        = Except.ok ({ status := "no_results" }, db, []))
    ∧ (∀ t ts, search item.title item.year = t :: ts →
      enrich_item_metadata search iid db
        = Except.ok ({ status := "success" },
            { db with items := db.items.map (fun it =>
                if it.id == iid then
                  { item with tmdb_id := some (toString t.id), overview := t.overview,
                              poster_url := t.poster_path, genres := some t.genres,
                              runtime := t.runtime }
                else it) },
            [item.id])) := by
  constructor
  · intro hsearch
    simp only [enrich_item_metadata, hfound, hneedy, hsearch, Bool.false_eq_true,
      if_false]
  · intro t ts hsearch
    simp only [enrich_item_metadata, hfound, hneedy, hsearch, Bool.false_eq_true,
      if_false]

/-- Second item fixture, distinct from the counterexample state. -/
def itemW5 : Item :=
  { id := 5, external_id := none, source := "NETFLIX", title := "T5", year := some 2001,
    type := "movie", overview := none, poster_url := none, genres := none,
    runtime := none, tmdb_id := none }

/-- Catalog holding only itemW5. -/
def dbItemW5 : AppDB :=
  { users := [], providers := [], items := [itemW5], events := [], embeddings := [],
    recommendations := [], nextId := 6 }

/-- C7 witness for the amended statement, on the itemW5 fixture. -/
theorem enrich_metadata_spec_witness :
    enrich_item_metadata (fun _ _ => []) 5 dbItemW5
      = Except.ok ({ status := "no_results" }, dbItemW5, ([] : List Nat)) :=
  (enrich_metadata_spec (fun _ _ => []) 5 dbItemW5 itemW5 rfl rfl).1 rfl

end Streamlink
